import Mathlib

/-! Custom service UUIDs of `service_uuids.h`

The header declares four constants of type `const uint8_t [16]`: the UUID of
a custom BLE service and the UUIDs of its three characteristics.  Each is
embedded as the declaration the header writes (declared extent and the list
of initialiser literals); the bytes the array holds are computed from that.
-/

namespace ServiceUuids

/-! ## Data model -/

/-- A declaration `const uint8_t NAME[extent] = {initializers};`. -/
structure ByteArrayDecl where
  /-- The number between the square brackets. -/
  extent : Nat
  /-- The literals between the braces, in the order written. -/
  initializers : List Nat
  deriving DecidableEq, Repr

/-- The elements of the declared array: every literal converted to `uint8_t`
(reduction modulo 256), positions without a literal zero-initialised, and
exactly `extent` elements in all. -/
def ByteArrayDecl.bytes (d : ByteArrayDecl) : List Nat :=
  (d.initializers.map (fun v => v % 256)
    ++ List.replicate (d.extent - d.initializers.length) 0).take d.extent

/-- The read `NAME[i]`; there is no element outside the array. -/
def ByteArrayDecl.byteAt (d : ByteArrayDecl) (i : Nat) : Option Nat :=
  d.bytes.get? i

/-- Line 28: `const uint8_t UUID_SVC_EXAMPLE[16] = {0x18,0xDA,...,0xCF};`. -/
def UUID_SVC_EXAMPLE : ByteArrayDecl :=
  ⟨16, [0x18,0xDA,0xB9,0x2F,0x19,0x93,0x67,0xBC,0x6,0x45,0x7,0xAB,0xA6,0x6C,0x63,0xCF]⟩

/-- Line 31: `const uint8_t UUID_CHR_COUNTER[16] = {0x1,0x0,0x0,0x0,...};`. -/
def UUID_CHR_COUNTER : ByteArrayDecl :=
  ⟨16, [0x1,0x0,0x0,0x0,0x19,0x93,0x67,0xBC,0x6,0x45,0x7,0xAB,0xA6,0x6C,0x63,0xCF]⟩

/-- Line 32: `const uint8_t UUID_CHR_TOGGLE[16] = {0x2,0x0,0x0,0x0,...};`. -/
def UUID_CHR_TOGGLE : ByteArrayDecl :=
  ⟨16, [0x2,0x0,0x0,0x0,0x19,0x93,0x67,0xBC,0x6,0x45,0x7,0xAB,0xA6,0x6C,0x63,0xCF]⟩

/-- Line 33: `const uint8_t UUID_CHR_DATA[16] = {0x3,0x0,0x0,0x0,...};`. -/
def UUID_CHR_DATA : ByteArrayDecl :=
  ⟨16, [0x3,0x0,0x0,0x0,0x19,0x93,0x67,0xBC,0x6,0x45,0x7,0xAB,0xA6,0x6C,0x63,0xCF]⟩

/-! ## Display form of a UUID -/

/-- One lowercase hexadecimal digit. -/
def hexDigit (n : Nat) : Char :=
  "0123456789abcdef".toList.getD n '?'

/-- A byte as two lowercase hexadecimal digits, high nibble first. -/
def hexByte (b : Nat) : List Char :=
  [hexDigit (b / 16), hexDigit (b % 16)]

/-- Cut a list into consecutive groups of the given sizes. -/
def splitGroups {α : Type} : List Nat → List α → List (List α)
  | [], _ => []
  | n :: ns, xs => xs.take n :: splitGroups ns (xs.drop n)

/-- The bytes in display order: the stored array reversed. -/
def ByteArrayDecl.displayBytes (d : ByteArrayDecl) : List Nat :=
  d.bytes.reverse

/-- The reported UUID string: the reversed bytes as hex in groups of
4, 2, 2, 2 and 6 bytes joined by `-`. -/
def ByteArrayDecl.display (d : ByteArrayDecl) : String :=
  "-".intercalate
    ((splitGroups [4, 2, 2, 2, 6] d.displayBytes).map
      (fun g => String.mk (g.flatMap hexByte)))

/-! ## Layout of the identifiers -/

/-- The bytes at indices 0 to 3 read as an unsigned 32-bit little-endian
integer: the sum of `byte[i] * 256^i`. -/
def ByteArrayDecl.suffix32 (d : ByteArrayDecl) : Nat :=
  ((List.range 4).map (fun i => d.bytes.getD i 0 * 256 ^ i)).sum

/-- The convention of the header comment for the characteristic numbered `n`:
the twelve base bytes of the service UUID, and the four remaining bytes
zeroed and then holding `n`; the array is written in reverse order, so the
number occupies indices 0 to 3, least significant byte first. -/
def enumeratedChr (n : Nat) : ByteArrayDecl :=
  ⟨16, [n % 256, n / 256 % 256, n / 65536 % 256, n / 16777216 % 256]
        ++ UUID_SVC_EXAMPLE.initializers.drop 4⟩

/-- Two arrays hold the same byte at every index from `lo` to `hi`. -/
def AgreeOn (a b : ByteArrayDecl) (lo hi : Nat) : Prop :=
  ∀ i, lo ≤ i → i ≤ hi → a.byteAt i = b.byteAt i

/-- Every index at which two arrays differ lies between `lo` and `hi`. -/
def DifferOnlyIn (a b : ByteArrayDecl) (lo hi : Nat) : Prop :=
  ∀ i, a.byteAt i ≠ b.byteAt i → lo ≤ i ∧ i ≤ hi

/-- Two arrays differ at every index from `lo` to `hi`. -/
def DifferOn (a b : ByteArrayDecl) (lo hi : Nat) : Prop :=
  ∀ i, lo ≤ i → i ≤ hi → a.byteAt i ≠ b.byteAt i

/-- The declaration gives a literal for each of its 16 positions, every
literal is a byte value, and the array holds exactly those 16 bytes. -/
def ExplicitSixteen (d : ByteArrayDecl) : Prop :=
  d.extent = 16 ∧ d.initializers.length = 16 ∧ (∀ v ∈ d.initializers, v < 256)
    ∧ d.bytes = d.initializers ∧ d.bytes.length = 16 ∧ ∀ b ∈ d.bytes, b < 256

/-- The RFC 4122 marker bits: version 4 in the high nibble of the stored
byte at index 9, which is display byte 6, and variant binary 10 in the top
two bits of the stored byte at index 7, which is display byte 8. -/
def HasV4Markers (d : ByteArrayDecl) : Prop :=
  (d.byteAt 9).map (fun b => b / 16) = some 4
    ∧ (d.byteAt 7).map (fun b => b / 64) = some 2
    ∧ d.displayBytes.get? 6 = d.byteAt 9
    ∧ d.displayBytes.get? 8 = d.byteAt 7

/-! ## Facts about the model -/

theorem bytes_length (d : ByteArrayDecl) : d.bytes.length = d.extent := by
  simp only [ByteArrayDecl.bytes, List.length_take, List.length_append, List.length_map,
    List.length_replicate]
  omega

theorem byteAt_none (d : ByteArrayDecl) (i : Nat) (h : d.extent ≤ i) :
    d.byteAt i = none := by
  unfold ByteArrayDecl.byteAt
  rw [List.get?_eq_none]
  rw [bytes_length]
  exact h

theorem bytes_lt (d : ByteArrayDecl) : ∀ b ∈ d.bytes, b < 256 := by
  intro b hb
  unfold ByteArrayDecl.bytes at hb
  have hb2 := List.mem_of_mem_take hb
  rcases List.mem_append.mp hb2 with h | h
  · rcases List.mem_map.mp h with ⟨v, _, rfl⟩
    omega
  · have := List.eq_of_mem_replicate h
    omega

/-- The three characteristics of the header are the members 1, 2 and 3 of
the enumeration. -/
theorem enumeratedChr_header :
    enumeratedChr 1 = UUID_CHR_COUNTER ∧ enumeratedChr 2 = UUID_CHR_TOGGLE
      ∧ enumeratedChr 3 = UUID_CHR_DATA := by
  decide

theorem agreeOn_of_check (a b : ByteArrayDecl) (lo hi : Nat)
    (h : ∀ i, i < hi + 1 → lo ≤ i → a.byteAt i = b.byteAt i) : AgreeOn a b lo hi := by
  intro i hlo hhi
  exact h i (by omega) hlo

theorem differOn_of_check (a b : ByteArrayDecl) (lo hi : Nat)
    (h : ∀ i, i < hi + 1 → lo ≤ i → a.byteAt i ≠ b.byteAt i) : DifferOn a b lo hi := by
  intro i hlo hhi
  exact h i (by omega) hlo

theorem differOnlyIn_of_check (a b : ByteArrayDecl) (lo hi : Nat)
    (h : ∀ i, i < max a.extent b.extent → a.byteAt i ≠ b.byteAt i → lo ≤ i ∧ i ≤ hi) :
    DifferOnlyIn a b lo hi := by
  intro i hne
  by_cases hi16 : i < max a.extent b.extent
  · exact h i hi16 hne
  · have ha : a.byteAt i = none := byteAt_none a i (by omega)
    have hb : b.byteAt i = none := byteAt_none b i (by omega)
    rw [ha, hb] at hne
    exact absurd rfl hne

/-! ## The claims -/

/-- C1: reversing the byte order of `UUID_SVC_EXAMPLE` and formatting the 16
reversed bytes as lowercase two-digit hex in groups of 4, 2, 2, 2 and 6 bytes
joined by `-` yields exactly `cf636ca6-ab07-4506-bc67-93192fb9da18`, the
string the header comment reports. -/
theorem C1_service_display :
    UUID_SVC_EXAMPLE.display = "cf636ca6-ab07-4506-bc67-93192fb9da18" := by
  decide

/-- C2: the four identifiers are pairwise distinct as full 16-byte
sequences; all six pairs differ. -/
theorem C2_pairwise_distinct :
    UUID_SVC_EXAMPLE.bytes ≠ UUID_CHR_COUNTER.bytes
      ∧ UUID_SVC_EXAMPLE.bytes ≠ UUID_CHR_TOGGLE.bytes
      ∧ UUID_SVC_EXAMPLE.bytes ≠ UUID_CHR_DATA.bytes
      ∧ UUID_CHR_COUNTER.bytes ≠ UUID_CHR_TOGGLE.bytes
      ∧ UUID_CHR_COUNTER.bytes ≠ UUID_CHR_DATA.bytes
      ∧ UUID_CHR_TOGGLE.bytes ≠ UUID_CHR_DATA.bytes := by
  decide

/-- C3 as stated fails: `UUID_CHR_COUNTER` and `UUID_CHR_TOGGLE`, as stored,
do not agree on indices 0 to 11 (index 0 holds 1 and 2), and it is not so
that their differing indices all lie in 12 to 15 (index 0 differs). -/
theorem C3_counterexample :
    UUID_CHR_COUNTER.byteAt 0 = some 1 ∧ UUID_CHR_TOGGLE.byteAt 0 = some 2
      ∧ ¬ AgreeOn UUID_CHR_COUNTER UUID_CHR_TOGGLE 0 11
      ∧ ¬ DifferOnlyIn UUID_CHR_COUNTER UUID_CHR_TOGGLE 12 15 := by
  refine ⟨by decide, by decide, ?_, ?_⟩
  · intro h
    exact absurd (h 0 (by decide) (by decide)) (by decide)
  · intro h
    exact absurd (h 0 (by decide)).1 (by decide)

/-- C3, amended: for every two of the three characteristic identifiers, taken
as stored arrays, the bytes at array indices 4 through 15 are equal, and
every index at which the two arrays differ lies in 0 through 3. -/
theorem C3_characteristics_share_base :
    (AgreeOn UUID_CHR_COUNTER UUID_CHR_TOGGLE 4 15
        ∧ DifferOnlyIn UUID_CHR_COUNTER UUID_CHR_TOGGLE 0 3)
      ∧ (AgreeOn UUID_CHR_COUNTER UUID_CHR_DATA 4 15
        ∧ DifferOnlyIn UUID_CHR_COUNTER UUID_CHR_DATA 0 3)
      ∧ (AgreeOn UUID_CHR_TOGGLE UUID_CHR_DATA 4 15
        ∧ DifferOnlyIn UUID_CHR_TOGGLE UUID_CHR_DATA 0 3) := by
  refine ⟨⟨?_, ?_⟩, ⟨?_, ?_⟩, ⟨?_, ?_⟩⟩
  · exact agreeOn_of_check _ _ _ _ (by decide)
  · exact differOnlyIn_of_check _ _ _ _ (by decide)
  · exact agreeOn_of_check _ _ _ _ (by decide)
  · exact differOnlyIn_of_check _ _ _ _ (by decide)
  · exact agreeOn_of_check _ _ _ _ (by decide)
  · exact differOnlyIn_of_check _ _ _ _ (by decide)

/-- C3, amended, at a concrete index: the stored bytes at index 4 of
`UUID_CHR_COUNTER` and `UUID_CHR_TOGGLE` are both 0x19. -/
theorem C3_characteristics_share_base_witness :
    UUID_CHR_COUNTER.byteAt 4 = some 0x19
      ∧ UUID_CHR_COUNTER.byteAt 4 = UUID_CHR_TOGGLE.byteAt 4 :=
  ⟨by decide, C3_characteristics_share_base.1.1 4 (by decide) (by decide)⟩

/-- C4: `UUID_CHR_COUNTER` and `UUID_CHR_TOGGLE` are equal at every array
index 1 through 15 and differ only at index 0, where `UUID_CHR_COUNTER` holds
1 and `UUID_CHR_TOGGLE` holds 2; in both arrays the bytes at indices 1, 2 and
3 are zero. -/
theorem C4_counter_toggle :
    AgreeOn UUID_CHR_COUNTER UUID_CHR_TOGGLE 1 15
      ∧ DifferOnlyIn UUID_CHR_COUNTER UUID_CHR_TOGGLE 0 0
      ∧ UUID_CHR_COUNTER.byteAt 0 = some 1
      ∧ UUID_CHR_TOGGLE.byteAt 0 = some 2
      ∧ (UUID_CHR_COUNTER.byteAt 1 = some 0 ∧ UUID_CHR_COUNTER.byteAt 2 = some 0
        ∧ UUID_CHR_COUNTER.byteAt 3 = some 0)
      ∧ (UUID_CHR_TOGGLE.byteAt 1 = some 0 ∧ UUID_CHR_TOGGLE.byteAt 2 = some 0
        ∧ UUID_CHR_TOGGLE.byteAt 3 = some 0) := by
  refine ⟨?_, ?_, by decide, by decide, by decide, by decide⟩
  · exact agreeOn_of_check _ _ _ _ (by decide)
  · exact differOnlyIn_of_check _ _ _ _ (by decide)

/-- C4 at a concrete index: the stored bytes at index 15 of
`UUID_CHR_COUNTER` and `UUID_CHR_TOGGLE` are both 0xCF. -/
theorem C4_counter_toggle_witness :
    UUID_CHR_COUNTER.byteAt 15 = some 0xCF
      ∧ UUID_CHR_COUNTER.byteAt 15 = UUID_CHR_TOGGLE.byteAt 15 :=
  ⟨by decide, C4_counter_toggle.1 15 (by decide) (by decide)⟩

/-- C5: each of the three characteristic identifiers shares its 12 base
bytes with the service identifier: at every array index from 4 through 15
`UUID_CHR_COUNTER`, `UUID_CHR_TOGGLE` and `UUID_CHR_DATA` hold the byte of
`UUID_SVC_EXAMPLE`; equivalently, in display order the first 12 bytes of each
characteristic are the first 12 bytes of the service. -/
theorem C5_base_from_service :
    (AgreeOn UUID_CHR_COUNTER UUID_SVC_EXAMPLE 4 15
        ∧ AgreeOn UUID_CHR_TOGGLE UUID_SVC_EXAMPLE 4 15
        ∧ AgreeOn UUID_CHR_DATA UUID_SVC_EXAMPLE 4 15)
      ∧ (UUID_CHR_COUNTER.displayBytes.take 12 = UUID_SVC_EXAMPLE.displayBytes.take 12
        ∧ UUID_CHR_TOGGLE.displayBytes.take 12 = UUID_SVC_EXAMPLE.displayBytes.take 12
        ∧ UUID_CHR_DATA.displayBytes.take 12 = UUID_SVC_EXAMPLE.displayBytes.take 12) := by
  refine ⟨⟨?_, ?_, ?_⟩, by decide⟩
  · exact agreeOn_of_check _ _ _ _ (by decide)
  · exact agreeOn_of_check _ _ _ _ (by decide)
  · exact agreeOn_of_check _ _ _ _ (by decide)

/-- C5 at a concrete index: the stored byte at index 4 of `UUID_CHR_DATA` is
0x19, the byte of `UUID_SVC_EXAMPLE` at index 4. -/
theorem C5_base_from_service_witness :
    UUID_SVC_EXAMPLE.byteAt 4 = some 0x19
      ∧ UUID_CHR_DATA.byteAt 4 = UUID_SVC_EXAMPLE.byteAt 4 :=
  ⟨by decide, C5_base_from_service.1.2.2 4 (by decide) (by decide)⟩

/-- C6: the 4 suffix bytes of the characteristic identifiers encode 1, 2, 3
in declaration order: the stored bytes at indices 0 to 3, read as an unsigned
32-bit little-endian integer, give 1 for `UUID_CHR_COUNTER`, 2 for
`UUID_CHR_TOGGLE` and 3 for `UUID_CHR_DATA`. -/
theorem C6_suffix_values :
    UUID_CHR_COUNTER.suffix32 = 1 ∧ UUID_CHR_TOGGLE.suffix32 = 2
      ∧ UUID_CHR_DATA.suffix32 = 3 := by
  decide

/-- C7: each of the four identifiers is a sequence of exactly 16 bytes, each
byte in the range 0..255, with all 16 positions given by an explicit literal:
the declared extent is 16, the initialiser list has 16 literals, each below
256, and the array holds exactly those literals. -/
theorem C7_sixteen_explicit_bytes :
    ExplicitSixteen UUID_SVC_EXAMPLE ∧ ExplicitSixteen UUID_CHR_COUNTER
      ∧ ExplicitSixteen UUID_CHR_TOGGLE ∧ ExplicitSixteen UUID_CHR_DATA := by
  refine ⟨?_, ?_, ?_, ?_⟩ <;>
    exact ⟨by decide, by decide, by decide, by decide, by decide, bytes_lt _⟩

/-- C9: all four identifiers carry the RFC 4122 version-4 / variant-1 marker
bits: the high nibble of the stored byte at index 9 equals 4, and the top two
bits of the stored byte at index 7 equal binary 10. -/
theorem C9_version_variant_markers :
    HasV4Markers UUID_SVC_EXAMPLE ∧ HasV4Markers UUID_CHR_COUNTER
      ∧ HasV4Markers UUID_CHR_TOGGLE ∧ HasV4Markers UUID_CHR_DATA := by
  refine ⟨?_, ?_, ?_, ?_⟩ <;> exact ⟨by decide, by decide, by decide, by decide⟩

/-- C10: the service identifier is not a member of the characteristic
enumeration and cannot collide with a characteristic numbered below 2^24:
`UUID_SVC_EXAMPLE` differs from each of the three characteristic identifiers
at every one of the array indices 0, 1, 2 and 3, its byte at index 3 is
non-zero, its 32-bit little-endian suffix is at least 2^24, and no
characteristic numbered `n < 2^24` under the convention of the header has its
bytes. -/
theorem C10_service_outside_enumeration :
    (DifferOn UUID_SVC_EXAMPLE UUID_CHR_COUNTER 0 3
        ∧ DifferOn UUID_SVC_EXAMPLE UUID_CHR_TOGGLE 0 3
        ∧ DifferOn UUID_SVC_EXAMPLE UUID_CHR_DATA 0 3)
      ∧ UUID_SVC_EXAMPLE.bytes.getD 3 0 ≠ 0
      ∧ 2 ^ 24 ≤ UUID_SVC_EXAMPLE.suffix32
      ∧ ∀ n, n < 2 ^ 24 → (enumeratedChr n).bytes ≠ UUID_SVC_EXAMPLE.bytes := by
  refine ⟨⟨?_, ?_, ?_⟩, by decide, by decide, ?_⟩
  · exact differOn_of_check _ _ _ _ (by decide)
  · exact differOn_of_check _ _ _ _ (by decide)
  · exact differOn_of_check _ _ _ _ (by decide)
  · intro n hn h
    have h3 := congrArg (fun l => l.getD 3 0) h
    simp [enumeratedChr, ByteArrayDecl.bytes, UUID_SVC_EXAMPLE] at h3
    omega

/-- C10 at a concrete number: the characteristic numbered 1 is
`UUID_CHR_COUNTER`, and its bytes are not those of `UUID_SVC_EXAMPLE`. -/
theorem C10_service_outside_enumeration_witness :
    enumeratedChr 1 = UUID_CHR_COUNTER
      ∧ (enumeratedChr 1).bytes ≠ UUID_SVC_EXAMPLE.bytes :=
  ⟨by decide, C10_service_outside_enumeration.2.2.2 1 (by decide)⟩

end ServiceUuids
